import Mathlib

/-!
# Verification of the routiners-app native shell

Shallow embedding of the session/token synchronization protocol and the
back-navigation decision engine of the `routiners-app` repository.

The repository contains two variants of the auth hook:

* a token-based variant (`src/hooks/use-auth.ts`, protocol `SET_TOKEN` /
  `TOKEN_RECEIVED`), embedded below in namespace `UseAuthToken`;
* a session-based variant (the second document inside `src/app/index.tsx`,
  protocol `SET_SESSION` / `CLEAR_SESSION` / `SESSION_SET`), embedded below
  in namespace `UseAuthSession`.

Stateful hook code is embedded as explicit state-passing functions over a
record of the hook's refs and React state; the ordered side effects that the
specification talks about (commands injected into the WebView, calls into the
Supabase provider, wipes of local flags) are recorded in an ordered `trace`
field.  Promise resolutions of the confirmation-waiting calls are recorded in
a `resolutions` log of `(call id, boolean outcome)` pairs.
-/

-- ============================================================================
-- Data model
-- ============================================================================

/-- A Supabase session as far as the shell consumes it: the fields
`access_token` and `refresh_token` it reads (`use-auth.ts`, `index.tsx`). -/
structure Session where
  access_token : String
  refresh_token : String
deriving DecidableEq, Repr

/-- Commands injected host → content as `app-command` event details: the
navigation commands of the spec's closed command set (section 6) plus the
auth commands built inline in the two auth-hook variants. -/
inductive WebCmd
  | navigateHome
  | navigateTo (path : String)
  | getRouteInfo
  | setToken (token : Option String)
  | setSession (access_token refresh_token : String)
  | clearSession
deriving DecidableEq, Repr

/-- Calls made into the external Supabase credential provider. -/
inductive ProviderCall
  | signOutCall
  | refreshCall
deriving DecidableEq, Repr

/-- One ordered, observable step of a host-side operation: a command injected
into the content surface, a call into the credential provider, or a wipe of a
local flag.  Recording these in order is what lets us state the sign-out
ordering properties. -/
inductive HostEv
  | cmd (c : WebCmd)
  | provider (p : ProviderCall)
  | wipeLastSentToken
  | clearWebReadyFlag
deriving DecidableEq, Repr

/-- `true` iff the event is a command injected into the content surface. -/
def HostEv.isCmd : HostEv → Bool
  | .cmd _ => true
  | _ => false

/-- Decidable check that (the first occurrence of) `a` comes strictly before
some occurrence of `b` in the trace `l`. -/
def occursBefore (a b : HostEv) (l : List HostEv) : Bool :=
  match l with
  | [] => false
  | x :: xs => if x == a then xs.contains b else occursBefore a b xs

/-- Outcome of one `supabase.auth.refreshSession()` call, as seen by the
caller: a refreshed session, a null session without error, an error result, or
a thrown exception. -/
inductive RefreshOutcome
  | refreshed (s : Session)
  | refreshedNoSession
  | refreshError
  | refreshThrew
deriving DecidableEq, Repr

/-- The refresh call failed (error result or thrown exception). -/
def RefreshOutcome.isFailure : RefreshOutcome → Bool
  | .refreshError => true
  | .refreshThrew => true
  | _ => false

/-- Supabase `onAuthStateChange` event kinds consumed by the hooks. -/
inductive AuthChangeEvent
  | signedIn
  | signedOut
  | tokenRefreshed
  | userUpdated
  | initialSession
deriving DecidableEq, Repr

/-- `RouteInfo` of `src/lib/webview` (the type itself lives in the webview lib
module that is not under `src/`; its four fields are fully determined by every
use site in `index.tsx` and `use-smart-back-handler.ts`). -/
structure RouteInfo where
  path : String
  isTabRoute : Bool
  isHome : Bool
  canGoBack : Bool
deriving DecidableEq, Repr

/-- Content → host messages (`WebToAppMessage`), the union of the tags handled
by `index.tsx` and the two auth-hook variants; `unknown` stands for any other
tag, which the handlers ignore. -/
inductive WebToAppMessage
  | webReady
  | tokenReceived (success : Option Bool)
  | requestTokenRefresh
  | sessionSet (success : Bool)
  | requestSessionRefresh
  | sessionExpired
  | routeInfoMsg (payload : RouteInfo)
  | logout
  | requestLogin
  | unknown (tag : String)
deriving DecidableEq, Repr

-- ============================================================================
-- URL and query-string parsing (model of the WHATWG `URL` / `URLSearchParams`
-- library objects used by `utils.ts`, `callback.tsx` and `use-auth.ts`)
-- ============================================================================

/-- Split a character list at the first occurrence of `c`; the second
component starts with `c`, or is empty when `c` does not occur. -/
def breakAtChar (c : Char) : List Char → List Char × List Char
  | [] => ([], [])
  | x :: xs =>
    if x = c then ([], x :: xs)
    else
      let p := breakAtChar c xs
      (x :: p.1, p.2)

/-- Split a character list at the first occurrence of the substring `://`. -/
def splitAtSchemeSep : List Char → Option (List Char × List Char)
  | [] => none
  | ':' :: '/' :: '/' :: rest => some ([], rest)
  | x :: xs =>
    match splitAtSchemeSep xs with
    | some p => some (x :: p.1, p.2)
    | none => none

/-- Components of a parsed URL in the shape the TypeScript code reads them:
`search` keeps its leading `?` and `hash` keeps its leading `#`, exactly as
the WHATWG `URL` object exposes them. -/
structure URLParts where
  scheme : String
  host : String
  pathname : String
  search : String
  hash : String
deriving DecidableEq, Repr

/-- Simplified model of `new URL(url)`: splits `scheme://host/path?query#frag`
at the first `://`, then at the first `#`, `?` and `/`.  Returns `none` (the
constructor throwing) when there is no `://` separator, the scheme is not
purely alphabetic, or the host is empty.  An absent path component yields
pathname `"/"`.  Percent-decoding and the full WHATWG grammar are not
modelled; every URL the theorems below evaluate is inside the modelled
fragment. -/
def parseURL (url : String) : Option URLParts :=
  match splitAtSchemeSep url.data with
  | none => none
  | some (schemeCs, rest) =>
    if schemeCs.isEmpty || !(schemeCs.all Char.isAlpha) then none
    else
      let p1 := breakAtChar '#' rest
      let p2 := breakAtChar '?' p1.1
      let p3 := breakAtChar '/' p2.1
      if p3.1.isEmpty then none
      else
        some { scheme := String.mk schemeCs
               host := String.mk p3.1
               pathname := if p3.2.isEmpty then "/" else String.mk p3.2
               search := String.mk p2.2
               hash := String.mk p1.2 }

/-- Helper for `parseParamList`: split on `&`, accumulating the current piece. -/
def splitAmpAux (acc : List Char) : List Char → List (List Char)
  | [] => [acc.reverse]
  | '&' :: rest => acc.reverse :: splitAmpAux [] rest
  | x :: rest => splitAmpAux (x :: acc) rest

/-- Model of `new URLSearchParams(s)`: strips one leading `?`, splits on `&`,
drops empty pieces, and splits each piece at its first `=` (a piece without
`=` maps to the empty value).  Percent/plus decoding is not modelled. -/
def parseParamList (s : String) : List (String × String) :=
  let cs := match s.data with
    | '?' :: rest => rest
    | other => other
  (splitAmpAux [] cs).filterMap fun kv =>
    if kv.isEmpty then none
    else
      let p := breakAtChar '=' kv
      match p.2 with
      | [] => some (String.mk p.1, "")
      | _ :: vs => some (String.mk p.1, String.mk vs)

/-- Model of `URLSearchParams.get(k)`: the value of the first pair whose key
is `k`, or `none` when absent (JavaScript `null`). -/
def getParam (s k : String) : Option String :=
  ((parseParamList s).find? (fun p => p.1 == k)).map (·.2)

/-- JavaScript truthiness of a `string | null` value: `null` and `""` are
falsy. -/
def truthy : Option String → Bool
  | none => false
  | some v => !(v == "")

/-- JavaScript `a || b` on `string | null` values. -/
def jsOr (a b : Option String) : Option String :=
  if truthy a then a else b

-- ============================================================================
-- src/lib/webview/utils.ts
-- ============================================================================

/-- `extractPath` (`utils.ts`): `new URL(url).pathname`, failing soft to `"/"`
when the URL constructor throws. -/
def extractPath (url : String) : String :=
  match parseURL url with
  | some u => u.pathname
  | none => "/"

-- ============================================================================
-- Command Channel (spec section 4.2; the webview lib bridge module is not
-- under src/)
-- ============================================================================

namespace UseAuthToken

/-- The mutable state of the token-based `useAuth` hook: whether a WebView is
attached to `webViewRef`, the `webReadyRef`, `lastSentTokenRef`,
the React `session` state, and the confirmation slot `tokenReceivedResolverRef`
(represented by the id of the call whose resolver — and live timer — it
holds).  `resolutions` logs each promise resolution `(call id, outcome)` in
order, and `trace` logs the ordered observable side effects. -/
structure AuthState where
  attached : Bool
  webReady : Bool
  lastSentToken : Option String
  cachedSession : Option Session
  pending : Option Nat
  resolutions : List (Nat × Bool)
  trace : List HostEv
deriving DecidableEq, Repr

/-- `sendTokenToWebView(token, force)` (`use-auth.ts:82`): returns `false`
without effect when no WebView is attached, or when `force` is off and the
token equals `lastSentTokenRef.current`; otherwise stores the token in
`lastSentTokenRef` and injects a `SET_TOKEN` command, returning `true`. -/
def sendTokenToWebView (token : Option String) (force : Bool) (s : AuthState) :
    Bool × AuthState :=
  if !s.attached then (false, s)
  else if !force && s.lastSentToken == token then (false, s)
  else (true, { s with lastSentToken := token
                       trace := s.trace ++ [HostEv.cmd (WebCmd.setToken token)] })

/-- `sendTokenAndWaitConfirmation(token, timeout)` (`use-auth.ts:121`): any
previously pending resolver is invoked with `false` (which also clears its
timer), a fresh timer and resolver are installed for `callId`, and the token
is force-sent; if the send fails the timer is cleared, the slot emptied and
the promise resolved `false` immediately.  The timeout duration is not
modelled as a number: the live timer is identified with the occupied
`pending` slot, since every code path that clears the resolver also clears
the timer. -/
def sendTokenAndWaitConfirmation (callId : Nat) (token : Option String)
    (s : AuthState) : AuthState :=
  let s1 := match s.pending with
    | some old => { s with pending := none
                           resolutions := s.resolutions ++ [(old, false)] }
    | none => s
  let s2 := { s1 with pending := some callId }
  match sendTokenToWebView token true s2 with
  | (true, s3) => s3
  | (false, s3) => { s3 with pending := none
                             resolutions := s3.resolutions ++ [(callId, false)] }

/-- Firing of the confirmation timeout installed by
`sendTokenAndWaitConfirmation` for `callId`: nulls the resolver slot and
resolves the promise `false`.  The callback can only run while its timer is
uncancelled, and every path that replaces or consumes the resolver clears the
timer, so the guard requires `callId` to still be the pending call. -/
def tokenConfirmTimeout (callId : Nat) (s : AuthState) : AuthState :=
  if s.pending == some callId then
    { s with pending := none, resolutions := s.resolutions ++ [(callId, false)] }
  else s

/-- `refreshAndSyncToken()` (`use-auth.ts:167`): calls
`supabase.auth.refreshSession()`; an error result or a thrown exception is
logged and the function returns; a refreshed session is force-sent to the
WebView.  The provider's response is passed in as `outcome`. -/
def refreshAndSyncToken (outcome : RefreshOutcome) (s : AuthState) : AuthState :=
  let s1 := { s with trace := s.trace ++ [HostEv.provider ProviderCall.refreshCall] }
  match outcome with
  | .refreshed sess => (sendTokenToWebView (some sess.access_token) true s1).2
  | _ => s1

/-- `handleWebMessage(message)` (`use-auth.ts:196`): `WEB_READY` sets the
ready flag and force-sends the cached token when one is present (and truthy);
`TOKEN_RECEIVED` invokes the pending resolver with `message.success ?? true`;
`REQUEST_TOKEN_REFRESH` runs `refreshAndSyncToken` (whose provider response is
`outcome`); every other tag falls through the `switch` unhandled. -/
def handleWebMessage (outcome : RefreshOutcome) (message : WebToAppMessage)
    (s : AuthState) : AuthState :=
  match message with
  | .webReady =>
    let s1 := { s with webReady := true }
    match s1.cachedSession with
    | some sess =>
      if sess.access_token == "" then s1
      else (sendTokenToWebView (some sess.access_token) true s1).2
    | none => s1
  | .tokenReceived success =>
    match s.pending with
    | some c => { s with pending := none
                         resolutions := s.resolutions ++ [(c, success.getD true)] }
    | none => s
  | .requestTokenRefresh => refreshAndSyncToken outcome s
  | _ => s

/-- The `onAuthStateChange` subscription callback (`use-auth.ts:332`): stores
the new session in React state, wipes `lastSentTokenRef` on `SIGNED_IN` and
`TOKEN_REFRESHED` events, then force-sends the new session's access token (or
`null`) to the WebView — unconditionally, with no web-ready check. -/
def onAuthStateChange (event : AuthChangeEvent) (newSession : Option Session)
    (s : AuthState) : AuthState :=
  let s1 := { s with cachedSession := newSession }
  let s2 :=
    if event == .signedIn || event == .tokenRefreshed then
      { s1 with lastSentToken := none, trace := s1.trace ++ [HostEv.wipeLastSentToken] }
    else s1
  (sendTokenToWebView (newSession.map (·.access_token)) true s2).2

/-- `signOut()` (`use-auth.ts:356`): awaits `supabase.auth.signOut()` first,
then wipes `lastSentTokenRef`, clears `webReadyRef`, and finally force-sends a
`null` token (the clear command) to the WebView. -/
def signOut (s : AuthState) : AuthState :=
  let s1 := { s with trace := s.trace ++ [HostEv.provider ProviderCall.signOutCall] }
  let s2 := { s1 with lastSentToken := none, trace := s1.trace ++ [HostEv.wipeLastSentToken] }
  let s3 := { s2 with webReady := false, trace := s2.trace ++ [HostEv.clearWebReadyFlag] }
  (sendTokenToWebView none true s3).2

end UseAuthToken

-- ============================================================================
-- Session-based auth hook variant (second document of src/app/index.tsx,
-- protocol SET_SESSION / CLEAR_SESSION / SESSION_SET)
-- ============================================================================

namespace UseAuthSession

/-- The mutable state of the session-based `useAuth` variant: WebView
attachment, `webReadyRef`, the React `session` state, and the
`sessionSetResolverRef` confirmation slot, with the same `resolutions` and
`trace` logs as the token variant.  This variant keeps no last-sent-token
cache. -/
structure AuthState where
  attached : Bool
  webReady : Bool
  cachedSession : Option Session
  pending : Option Nat
  resolutions : List (Nat × Bool)
  trace : List HostEv
deriving DecidableEq, Repr

/-- `sendSessionToWebView(accessToken, refreshToken)` (`index.tsx:410`):
returns `false` without effect when no WebView is attached; otherwise injects
a `SET_SESSION` command and returns `true`. -/
def sendSessionToWebView (accessToken refreshToken : String) (s : AuthState) :
    Bool × AuthState :=
  if !s.attached then (false, s)
  else (true, { s with trace := s.trace ++ [HostEv.cmd (WebCmd.setSession accessToken refreshToken)] })

/-- `clearSessionInWebView()` (`index.tsx:445`): a `void` function that
injects a `CLEAR_SESSION` command, or silently does nothing when no WebView is
attached. -/
def clearSessionInWebView (s : AuthState) : AuthState :=
  if !s.attached then s
  else { s with trace := s.trace ++ [HostEv.cmd WebCmd.clearSession] }

/-- `syncSessionToWebView(currentSession)` (`index.tsx:469`): a `null`
session sends `CLEAR_SESSION` and resolves `true` immediately; otherwise any
previously pending resolver is invoked with `false`, a fresh timer and
resolver are installed for `callId`, and the session is sent; if the send
fails the timer is cleared, the slot emptied and the promise resolved `false`
immediately. -/
def syncSessionToWebView (callId : Nat) (currentSession : Option Session)
    (s : AuthState) : AuthState :=
  match currentSession with
  | none =>
    let s1 := clearSessionInWebView s
    { s1 with resolutions := s1.resolutions ++ [(callId, true)] }
  | some sess =>
    let s1 := match s.pending with
      | some old => { s with pending := none
                             resolutions := s.resolutions ++ [(old, false)] }
      | none => s
    let s2 := { s1 with pending := some callId }
    match sendSessionToWebView sess.access_token sess.refresh_token s2 with
    | (true, s3) => s3
    | (false, s3) => { s3 with pending := none
                               resolutions := s3.resolutions ++ [(callId, false)] }

/-- Firing of the 5-second timeout installed by `syncSessionToWebView`; as in
the token variant, a live timer coincides with the occupied resolver slot. -/
def sessionSetTimeout (callId : Nat) (s : AuthState) : AuthState :=
  if s.pending == some callId then
    { s with pending := none, resolutions := s.resolutions ++ [(callId, false)] }
  else s

/-- `refreshAndSyncSession()` (`index.tsx:515`): calls
`supabase.auth.refreshSession()`; an error result or a thrown exception is
logged and the function returns; a refreshed session is synced (with
confirmation wait `callId`) to the WebView. -/
def refreshAndSyncSession (callId : Nat) (outcome : RefreshOutcome)
    (s : AuthState) : AuthState :=
  let s1 := { s with trace := s.trace ++ [HostEv.provider ProviderCall.refreshCall] }
  match outcome with
  | .refreshed sess => syncSessionToWebView callId (some sess) s1
  | _ => s1

/-- `handleWebMessage(message)` (`index.tsx:539`): `WEB_READY` sets the ready
flag and syncs the cached session when present; `SESSION_SET` invokes the
pending resolver with `message.success`; `REQUEST_SESSION_REFRESH` runs
`refreshAndSyncSession`; `SESSION_EXPIRED` calls `supabase.auth.signOut()`;
other tags fall through unhandled. -/
def handleWebMessage (callId : Nat) (outcome : RefreshOutcome)
    (message : WebToAppMessage) (s : AuthState) : AuthState :=
  match message with
  | .webReady =>
    let s1 := { s with webReady := true }
    match s1.cachedSession with
    | some sess => syncSessionToWebView callId (some sess) s1
    | none => s1
  | .sessionSet success =>
    match s.pending with
    | some c => { s with pending := none
                         resolutions := s.resolutions ++ [(c, success)] }
    | none => s
  | .requestSessionRefresh => refreshAndSyncSession callId outcome s
  | .sessionExpired => { s with trace := s.trace ++ [HostEv.provider ProviderCall.signOutCall] }
  | _ => s

/-- The `onAuthStateChange` subscription callback (`index.tsx:681`): stores
the new session, then syncs it to the WebView only when `webReadyRef` is set;
otherwise delivery is deferred to the `WEB_READY` handler. -/
def onAuthStateChange (callId : Nat) (event : AuthChangeEvent)
    (newSession : Option Session) (s : AuthState) : AuthState :=
  let _ := event
  let s1 := { s with cachedSession := newSession }
  if s1.webReady then syncSessionToWebView callId newSession s1 else s1

/-- `signOut()` (`index.tsx:700`): sends `CLEAR_SESSION` to the WebView
first, then clears `webReadyRef`, then awaits `supabase.auth.signOut()`. -/
def signOut (s : AuthState) : AuthState :=
  let s1 := clearSessionInWebView s
  let s2 := { s1 with webReady := false, trace := s1.trace ++ [HostEv.clearWebReadyFlag] }
  { s2 with trace := s2.trace ++ [HostEv.provider ProviderCall.signOutCall] }

end UseAuthSession

-- ============================================================================
-- src/hooks/use-smart-back-handler.ts
-- ============================================================================

/-- Modelled from the spec: `DOUBLE_TAP_EXIT_DELAY` lives in the webview lib
constants module that is not under `src/`; spec section 4.5 fixes it as "a
fixed debounce window (e.g., 2 seconds)". -/
def DOUBLE_TAP_EXIT_DELAY : Int := 2000

/-- The decision the back-press handler takes before returning. -/
inductive BackDecision
  | defer
  | delegateWebBack
  | forceHome
  | exitApp
  | showExitNotice
deriving DecidableEq, Repr

/-- Result of one hardware back-press: the decision taken, the boolean the
handler returns (`true` consumes the event, suppressing the platform default),
and the new value of `lastBackPressRef`. -/
structure BackResult where
  decision : BackDecision
  consumed : Bool
  lastBackPress : Int
deriving DecidableEq, Repr

/-- `handleBackPress` (`use-smart-back-handler.ts:48`): off Android it returns
`false` (defer to the platform); Case 1 delegates to the WebView's own
go-back on a non-tab route that can go back; Case 2 forces navigation home on
a non-home tab route; Case 3 exits when the previous press was less than
`DOUBLE_TAP_EXIT_DELAY` ms ago, and otherwise records this press, shows the
exit toast and consumes the event.  Timestamps are `Date.now()` values. -/
def handleBackPress (onAndroid : Bool) (routeInfo : RouteInfo)
    (lastBackPress now : Int) : BackResult :=
  if !onAndroid then ⟨.defer, false, lastBackPress⟩
  else if !routeInfo.isTabRoute && routeInfo.canGoBack then
    ⟨.delegateWebBack, true, lastBackPress⟩
  else if routeInfo.isTabRoute && !routeInfo.isHome then
    ⟨.forceHome, true, lastBackPress⟩
  else if now - lastBackPress < DOUBLE_TAP_EXIT_DELAY then
    ⟨.exitApp, true, lastBackPress⟩
  else
    ⟨.showExitNotice, true, now⟩

-- ============================================================================
-- src/app/index.tsx — navigation handler
-- ============================================================================

/-- The two fields of the `WebViewNavigation` event that `handleNavigation`
reads. -/
structure WebViewNavigation where
  url : String
  canGoBack : Bool
deriving DecidableEq, Repr

/-- `handleNavigation` (`index.tsx:197`): classifies the navigated URL and
writes the new `RouteInfo`.  `isTabRouteFn` stands for the fixed `isTabRoute`
membership test of the webview lib (its configured set is not under `src/`;
the theorems below hold for every such classifier).  `canGoBack` is the raw
WebView capability forced to `false` on home. -/
def handleNavigation (isTabRouteFn : String → Bool) (navState : WebViewNavigation)
    (prev : RouteInfo) : RouteInfo :=
  let path := extractPath navState.url
  let onTabRoute := isTabRouteFn path
  let isHome := path == "/"
  { prev with path := path
              isTabRoute := onTabRoute
              isHome := isHome
              canGoBack := navState.canGoBack && !isHome }

-- ============================================================================
-- Deep-link credential extraction (src/app/auth/callback.tsx and the
-- callback-URL handling inside signInWithGoogle, use-auth.ts:264)
-- ============================================================================

/-- What the callback handlers do with an authorization redirect URL. -/
inductive CallbackAction
  | setSessionTokens (access_token refresh_token : String)
  | exchangeCode (code : String)
  | noCredentials
deriving DecidableEq, Repr

/-- `urlObj.hash.startsWith('#') ? urlObj.hash.substring(1) : ''`
(`callback.tsx:36`). -/
def stripHash (s : String) : String :=
  match s.data with
  | c :: rest => if c = '#' then String.mk rest else ""
  | [] => ""

/-- Credential extraction of `handleCallback` (`callback.tsx:34`) on parsed
URL components: both the fragment and the query are consulted for each of
`access_token`, `refresh_token` and `code`, the fragment winning via `||`;
a truthy token pair wins over a truthy code. -/
def handleCallbackParts (u : URLParts) : CallbackAction :=
  let hashParams := stripHash u.hash
  let queryParams := u.search
  let accessToken := jsOr (getParam hashParams "access_token") (getParam queryParams "access_token")
  let refreshToken := jsOr (getParam hashParams "refresh_token") (getParam queryParams "refresh_token")
  let code := jsOr (getParam hashParams "code") (getParam queryParams "code")
  if truthy accessToken && truthy refreshToken then
    .setSessionTokens (accessToken.getD "") (refreshToken.getD "")
  else if truthy code then .exchangeCode (code.getD "")
  else .noCredentials

/-- `handleCallback` (`callback.tsx:19`) on a raw URL: a URL the `URL`
constructor rejects lands in the outer `catch` (navigate home, no credential
action), modelled as `none`. -/
def handleCallback (url : String) : Option CallbackAction :=
  (parseURL url).map handleCallbackParts

/-- The single component `signInWithGoogle` (`use-auth.ts:264`) feeds to
`URLSearchParams`: the fragment when it is non-empty, and the raw query
otherwise (`url.hash.startsWith('#') ? url.hash.substring(1) : url.search`);
only one of the two locations is ever consulted. -/
def signInParamsSource (u : URLParts) : String :=
  match u.hash.data with
  | c :: rest => if c = '#' then String.mk rest else u.search
  | [] => u.search

/-- Credential extraction inside `signInWithGoogle` on parsed URL
components, continued: the chosen single component feeds one
`URLSearchParams` and the same token-pair-then-code decision follows. -/
def signInWithGoogleExtractParts (u : URLParts) : CallbackAction :=
  let params := signInParamsSource u
  let accessToken := getParam params "access_token"
  let refreshToken := getParam params "refresh_token"
  if truthy accessToken && truthy refreshToken then
    .setSessionTokens (accessToken.getD "") (refreshToken.getD "")
  else
    let code := getParam params "code"
    if truthy code then .exchangeCode (code.getD "")
    else .noCredentials

/-- `signInWithGoogle`'s handling of the auth-session result URL; a URL the
`URL` constructor rejects propagates as an exception there, modelled as
`none`. -/
def signInWithGoogleExtract (url : String) : Option CallbackAction :=
  (parseURL url).map signInWithGoogleExtractParts

/-- A concrete attached, web-ready, authenticated state of the token-based
hook. -/
def sampleTokenState : UseAuthToken.AuthState :=
  ⟨true, true, some "tok", some ⟨"tok", "ref"⟩, none, [], []⟩

/-- A concrete attached, web-ready, authenticated state of the session-based
hook variant. -/
def sampleSessionState : UseAuthSession.AuthState :=
  ⟨true, true, some ⟨"tok", "ref"⟩, none, [], []⟩

/-- A concrete attached state of the token-based hook with nothing sent yet:
`lastSentTokenRef` still holds its initial `null`. -/
def freshTokenState : UseAuthToken.AuthState := ⟨true, false, none, none, none, [], []⟩

/-- A concrete attached state of the token-based hook whose content surface
has not yet announced readiness. -/
def notReadyTokenState : UseAuthToken.AuthState :=
  ⟨true, false, some "old", none, none, [], []⟩

/-- A concrete state of the token-based hook with a confirmation wait (call
id 1) outstanding. -/
def pendingTokenState : UseAuthToken.AuthState :=
  ⟨true, true, some "t", some ⟨"t", "r"⟩, some 1, [], []⟩

/-- The promise outcomes appended when a send-and-await call `c` is issued
and its underlying send fails: a superseded waiter `old` resolves `false`
first, then `c` itself resolves `false`. -/
def supersededResolutions (pending : Option Nat) (c : Nat) : List (Nat × Bool) :=
  match pending with
  | some old => [(old, false), (c, false)]
  | none => [(c, false)]

-- ============================================================================
-- Theorems
-- ============================================================================

/-- Claim C5: on Android the back-press handler evaluates its rules in order with
first match winning — (1) a non-tab route that can go back delegates to the
WebView's go-back and consumes the event; (2) a non-home tab route forces
navigation home and consumes the event regardless of `canGoBack`; (3)
otherwise it exits when a prior press lies within the debounce window, and
else records the press, shows the exit notice and consumes the event; off
Android it always defers to the platform default. -/
theorem backHandler_decision_table (r : RouteInfo) (last now : Int) :
    handleBackPress false r last now = ⟨.defer, false, last⟩
  ∧ (r.isTabRoute = false → r.canGoBack = true →
      handleBackPress true r last now = ⟨.delegateWebBack, true, last⟩)
  ∧ (r.isTabRoute = true → r.isHome = false →
      handleBackPress true r last now = ⟨.forceHome, true, last⟩)
  ∧ ((r.isTabRoute = false → r.canGoBack = false) →
     (r.isTabRoute = true → r.isHome = true) →
      now - last < DOUBLE_TAP_EXIT_DELAY →
      handleBackPress true r last now = ⟨.exitApp, true, last⟩)
  ∧ ((r.isTabRoute = false → r.canGoBack = false) →
     (r.isTabRoute = true → r.isHome = true) →
      ¬(now - last < DOUBLE_TAP_EXIT_DELAY) →
      handleBackPress true r last now = ⟨.showExitNotice, true, now⟩) := by
  obtain ⟨p, t, h, g⟩ := r
  refine ⟨rfl, ?_, ?_, ?_, ?_⟩
  · intro ht hg
    simp at ht hg
    simp [handleBackPress, ht, hg]
  · intro ht hh
    simp at ht hh
    simp [handleBackPress, ht, hh]
  · intro h1 h2 hlt
    cases t
    · have hg := h1 rfl
      simp_all [handleBackPress]
    · have hh := h2 rfl
      simp_all [handleBackPress]
  · intro h1 h2 hlt
    cases t
    · have hg := h1 rfl
      simp_all [handleBackPress]
    · have hh := h2 rfl
      simp_all [handleBackPress]

/-- Witness for `backHandler_decision_table`: each rule evaluated on a
concrete route and pair of timestamps. -/
theorem backHandler_decision_table_witness :
    handleBackPress true ⟨"/ai/detail", false, false, true⟩ 0 10000
      = ⟨.delegateWebBack, true, 0⟩
  ∧ handleBackPress true ⟨"/routine", true, false, false⟩ 0 10000
      = ⟨.forceHome, true, 0⟩
  ∧ handleBackPress true ⟨"/", true, true, false⟩ 9000 10000
      = ⟨.exitApp, true, 9000⟩
  ∧ handleBackPress true ⟨"/", true, true, false⟩ 0 10000
      = ⟨.showExitNotice, true, 10000⟩
  ∧ handleBackPress false ⟨"/ai", true, false, true⟩ 0 10000
      = ⟨.defer, false, 0⟩ := by
  refine ⟨(backHandler_decision_table ⟨"/ai/detail", false, false, true⟩ 0 10000).2.1 rfl rfl,
          (backHandler_decision_table ⟨"/routine", true, false, false⟩ 0 10000).2.2.1 rfl rfl,
          (backHandler_decision_table ⟨"/", true, true, false⟩ 9000 10000).2.2.2.1
            (fun _ => rfl) (fun _ => rfl) (by decide),
          (backHandler_decision_table ⟨"/", true, true, false⟩ 0 10000).2.2.2.2
            (fun _ => rfl) (fun _ => rfl) (by decide),
          (backHandler_decision_table ⟨"/ai", true, false, true⟩ 0 10000).1⟩

/-- Claim C6: route classification from a navigation event — a URL the parser
rejects fails soft to path `"/"`; `isHome` holds exactly when the path equals
the root path; and the written `RouteInfo` forces `canGoBack` to `false` on
home, overriding the WebView's raw capability. -/
theorem routeClassification_homeInvariant (tf : String → Bool)
    (nav : WebViewNavigation) (prev : RouteInfo) :
    (parseURL nav.url = none → (handleNavigation tf nav prev).path = "/")
  ∧ ((handleNavigation tf nav prev).isHome
      = ((handleNavigation tf nav prev).path == "/"))
  ∧ ((handleNavigation tf nav prev).isHome = true →
      (handleNavigation tf nav prev).canGoBack = false) := by
  refine ⟨?_, ?_, ?_⟩
  · intro h
    simp [handleNavigation, extractPath, h]
  · simp [handleNavigation]
  · intro h
    simp [handleNavigation] at h ⊢
    simp [h]

/-- Witness for `routeClassification_homeInvariant`: a malformed URL with raw
`canGoBack = true` classifies to the home route with `canGoBack` forced
`false`. -/
theorem routeClassification_homeInvariant_witness :
    (handleNavigation (fun _ => false) ⟨"oops", true⟩ ⟨"/", true, true, false⟩).path = "/"
  ∧ (handleNavigation (fun _ => false) ⟨"oops", true⟩ ⟨"/", true, true, false⟩).canGoBack
      = false := by
  refine ⟨(routeClassification_homeInvariant (fun _ => false) ⟨"oops", true⟩
            ⟨"/", true, true, false⟩).1 (by decide),
          (routeClassification_homeInvariant (fun _ => false) ⟨"oops", true⟩
            ⟨"/", true, true, false⟩).2.2 (by decide)⟩

/-- Claim C1, counterexample: in the token-based hook's `signOut`
(`use-auth.ts:356`) the provider's `supabase.auth.signOut()` is awaited
*before* the clear command (`SET_TOKEN null`) is pushed to content, so on a
concrete sign-out the clear command does not precede the provider's session
invalidation — it follows it. -/
theorem tokenSignOut_clear_after_invalidate_counterexample :
    (UseAuthToken.signOut sampleTokenState).trace
      = [.provider .signOutCall, .wipeLastSentToken, .clearWebReadyFlag,
         .cmd (.setToken none)]
  ∧ occursBefore (.cmd (.setToken none)) (.provider .signOutCall)
      (UseAuthToken.signOut sampleTokenState).trace = false
  ∧ occursBefore (.provider .signOutCall) (.cmd (.setToken none))
      (UseAuthToken.signOut sampleTokenState).trace = true := by
  decide

/-- Claim C1, amended: both `signOut` implementations clear the WebReadyFlag,
but only the session-based variant (`index.tsx:700`) pushes the clear command
strictly before the provider's session invalidation; the token-based variant
(`use-auth.ts:356`) awaits the provider sign-out first and pushes the clear
command last, after wiping the local token cache and ready flag. -/
theorem signOut_command_order (s : UseAuthToken.AuthState)
    (t : UseAuthSession.AuthState) (hs : s.attached = true)
    (ht : t.attached = true) :
    (UseAuthToken.signOut s).trace
      = s.trace ++ [.provider .signOutCall, .wipeLastSentToken,
          .clearWebReadyFlag, .cmd (.setToken none)]
  ∧ (UseAuthToken.signOut s).webReady = false
  ∧ (UseAuthSession.signOut t).trace
      = t.trace ++ [.cmd .clearSession, .clearWebReadyFlag, .provider .signOutCall]
  ∧ (UseAuthSession.signOut t).webReady = false := by
  refine ⟨?_, ?_, ?_, ?_⟩ <;>
    simp [UseAuthToken.signOut, UseAuthToken.sendTokenToWebView,
      UseAuthSession.signOut, UseAuthSession.clearSessionInWebView, hs, ht]

/-- Witness for `signOut_command_order` on the concrete sample states. -/
theorem signOut_command_order_witness :
    (UseAuthToken.signOut sampleTokenState).trace
      = [.provider .signOutCall, .wipeLastSentToken, .clearWebReadyFlag,
         .cmd (.setToken none)]
  ∧ (UseAuthSession.signOut sampleSessionState).trace
      = [.cmd .clearSession, .clearWebReadyFlag, .provider .signOutCall] := by
  have h := signOut_command_order sampleTokenState sampleSessionState rfl rfl
  exact ⟨h.1, h.2.2.1⟩

/-- Claim C3, counterexample: with the session absent (`token = null`),
`force` off and `lastSentTokenRef` still `null`, `sendTokenToWebView` skips —
it returns `false` and injects nothing — so clearing is deduplicated like any
other token value, not sent unconditionally. -/
theorem clearToken_deduplicated_counterexample :
    UseAuthToken.sendTokenToWebView none false freshTokenState
      = (false, freshTokenState)
  ∧ (UseAuthToken.sendTokenToWebView none false freshTokenState).2.trace = [] := by
  decide

/-- Claim C3, amended: on an attached surface `sendTokenToWebView` dedups
every token value — the `null` clear included — against `lastSentTokenRef`:
an equal value with `force` off is skipped with no effect; `force` or a
differing value updates `lastSentTokenRef` and injects `SET_TOKEN`; two
consecutive unforced calls with the same token send at most once; and a
`false` return always means nothing was sent. -/
theorem sendToken_dedup_semantics (s : UseAuthToken.AuthState)
    (tok : Option String) (hatt : s.attached = true) :
    (s.lastSentToken = tok →
      UseAuthToken.sendTokenToWebView tok false s = (false, s))
  ∧ (∀ force : Bool, force = true ∨ s.lastSentToken ≠ tok →
      UseAuthToken.sendTokenToWebView tok force s
        = (true, { s with lastSentToken := tok,
                          trace := s.trace ++ [.cmd (.setToken tok)] }))
  ∧ (UseAuthToken.sendTokenToWebView tok false
        (UseAuthToken.sendTokenToWebView tok false s).2).1 = false
  ∧ (∀ force : Bool, (UseAuthToken.sendTokenToWebView tok force s).1 = false →
      (UseAuthToken.sendTokenToWebView tok force s).2 = s) := by
  refine ⟨?_, ?_, ?_, ?_⟩
  · intro h
    simp [UseAuthToken.sendTokenToWebView, hatt, h]
  · rintro force (hf | hne)
    · subst hf
      simp [UseAuthToken.sendTokenToWebView, hatt]
    · cases force <;>
        simp [UseAuthToken.sendTokenToWebView, hatt, hne]
  · by_cases h : s.lastSentToken = tok <;>
      simp [UseAuthToken.sendTokenToWebView, hatt, h]
  · intro force h
    cases force <;> by_cases hc : s.lastSentToken = tok <;>
      simp_all [UseAuthToken.sendTokenToWebView, hatt, hc]

/-- Witness for `sendToken_dedup_semantics`: a differing token is sent and
recorded, after which an identical unforced resend is skipped. -/
theorem sendToken_dedup_semantics_witness :
    UseAuthToken.sendTokenToWebView (some "b") false
        ⟨true, true, some "a", none, none, [], []⟩
      = (true, ⟨true, true, some "b", none, none, [],
          [.cmd (.setToken (some "b"))]⟩)
  ∧ (UseAuthToken.sendTokenToWebView (some "b") false
        (UseAuthToken.sendTokenToWebView (some "b") false
          ⟨true, true, some "a", none, none, [], []⟩).2).1 = false := by
  have h := sendToken_dedup_semantics ⟨true, true, some "a", none, none, [], []⟩
    (some "b") rfl
  exact ⟨h.2.1 false (Or.inr (by decide)), h.2.2.1⟩

/-- Claim C4, counterexample: in the token-based hook the `onAuthStateChange`
callback force-sends the new token even though the WebReadyFlag is not set —
delivery is not gated on readiness, so "delivered iff WebReadyFlag" fails on
this concrete sign-in notification. -/
theorem authChange_delivery_ignores_webReady_counterexample :
    notReadyTokenState.webReady = false
  ∧ (UseAuthToken.onAuthStateChange .signedIn (some ⟨"newtok", "r"⟩)
      notReadyTokenState).trace
      = [.wipeLastSentToken, .cmd (.setToken (some "newtok"))] := by
  decide

/-- Claim C4, amended: on a provider credential-change notification, the
token-based hook clears `lastSentTokenRef` on sign-in and token-refresh
events and then force-delivers the new token unconditionally whenever a
surface is attached, regardless of the WebReadyFlag; the session-based
variant keeps no last-sent cache and delivers exactly when the WebReadyFlag
is set, deferring otherwise. -/
theorem onAuthStateChange_semantics (s : UseAuthToken.AuthState)
    (t : UseAuthSession.AuthState) (ev : AuthChangeEvent) (sess : Option Session)
    (x : Session) (id : Nat) (hs : s.attached = true) :
    (ev = .signedIn ∨ ev = .tokenRefreshed →
      (UseAuthToken.onAuthStateChange ev sess s).trace
        = s.trace ++ [.wipeLastSentToken,
            .cmd (.setToken (sess.map (·.access_token)))]
      ∧ (UseAuthToken.onAuthStateChange ev sess s).cachedSession = sess)
  ∧ (t.webReady = false →
      UseAuthSession.onAuthStateChange id ev sess t = { t with cachedSession := sess })
  ∧ (t.webReady = true → t.attached = true →
      (UseAuthSession.onAuthStateChange id ev (some x) t).trace
        = t.trace ++ [.cmd (.setSession x.access_token x.refresh_token)]) := by
  refine ⟨?_, ?_, ?_⟩
  · rintro (hev | hev) <;> subst hev <;>
      exact ⟨by simp [UseAuthToken.onAuthStateChange, UseAuthToken.sendTokenToWebView, hs],
             by simp [UseAuthToken.onAuthStateChange, UseAuthToken.sendTokenToWebView, hs]⟩
  · intro hw
    simp [UseAuthSession.onAuthStateChange, hw]
  · intro hw ht
    cases hp : t.pending <;>
      simp [UseAuthSession.onAuthStateChange, UseAuthSession.syncSessionToWebView,
        UseAuthSession.sendSessionToWebView, hw, ht, hp]

/-- Witness for `onAuthStateChange_semantics`: a sign-in notification on
concrete states of each variant. -/
theorem onAuthStateChange_semantics_witness :
    (UseAuthToken.onAuthStateChange .signedIn (some ⟨"n", "r"⟩) sampleTokenState).trace
      = [.wipeLastSentToken, .cmd (.setToken (some "n"))]
  ∧ UseAuthSession.onAuthStateChange 7 .signedIn (some ⟨"n", "r"⟩)
      ⟨true, false, none, none, [], []⟩
      = ⟨true, false, some ⟨"n", "r"⟩, none, [], []⟩
  ∧ (UseAuthSession.onAuthStateChange 7 .signedIn (some ⟨"n", "r"⟩)
      sampleSessionState).trace
      = [.cmd (.setSession "n" "r")] := by
  refine ⟨((onAuthStateChange_semantics sampleTokenState sampleSessionState .signedIn
      (some ⟨"n", "r"⟩) ⟨"n", "r"⟩ 7 rfl).1 (Or.inl rfl)).1,
    (onAuthStateChange_semantics sampleTokenState ⟨true, false, none, none, [], []⟩
      .signedIn (some ⟨"n", "r"⟩) ⟨"n", "r"⟩ 7 rfl).2.1 rfl,
    (onAuthStateChange_semantics sampleTokenState sampleSessionState .signedIn
      (some ⟨"n", "r"⟩) ⟨"n", "r"⟩ 7 rfl).2.2 rfl rfl⟩

/-- Claim C2: the confirmation slot holds at most one waiter, and starting
`sendTokenAndWaitConfirmation` while call `c1` is pending resolves `c1` as
`false` immediately, before anything else is resolved; a `TOKEN_RECEIVED`
confirmation resolves the pending call with the message's success flag
(`true` on success), and the timeout resolves it `false`.  All transitions
are total functions — no exception is raised. -/
theorem pendingConfirmation_supersede_resolve (s : UseAuthToken.AuthState)
    (c1 c2 : Nat) (tok : Option String) (h : s.pending = some c1) :
    (∃ rest, (UseAuthToken.sendTokenAndWaitConfirmation c2 tok s).resolutions
        = s.resolutions ++ [(c1, false)] ++ rest)
  ∧ ((UseAuthToken.sendTokenAndWaitConfirmation c2 tok s).pending = some c2
      ∨ (UseAuthToken.sendTokenAndWaitConfirmation c2 tok s).pending = none)
  ∧ (∀ o : RefreshOutcome, ∀ succ : Bool,
      UseAuthToken.handleWebMessage o (.tokenReceived (some succ)) s
        = { s with pending := none,
                   resolutions := s.resolutions ++ [(c1, succ)] })
  ∧ UseAuthToken.tokenConfirmTimeout c1 s
      = { s with pending := none,
                 resolutions := s.resolutions ++ [(c1, false)] } := by
  refine ⟨?_, ?_, ?_, ?_⟩
  · cases hatt : s.attached
    · refine ⟨[(c2, false)], ?_⟩
      simp [UseAuthToken.sendTokenAndWaitConfirmation,
        UseAuthToken.sendTokenToWebView, h, hatt]
    · refine ⟨[], ?_⟩
      simp [UseAuthToken.sendTokenAndWaitConfirmation,
        UseAuthToken.sendTokenToWebView, h, hatt]
  · cases hatt : s.attached
    · right
      simp [UseAuthToken.sendTokenAndWaitConfirmation,
        UseAuthToken.sendTokenToWebView, h, hatt]
    · left
      simp [UseAuthToken.sendTokenAndWaitConfirmation,
        UseAuthToken.sendTokenToWebView, h, hatt]
  · intro o succ
    simp [UseAuthToken.handleWebMessage, h]
  · simp [UseAuthToken.tokenConfirmTimeout, h]

/-- Witness for `pendingConfirmation_supersede_resolve` on a concrete state
with call 1 pending, superseded by call 2. -/
theorem pendingConfirmation_supersede_resolve_witness :
    (∃ rest, (UseAuthToken.sendTokenAndWaitConfirmation 2 (some "t2")
        pendingTokenState).resolutions
        = pendingTokenState.resolutions ++ [(1, false)] ++ rest)
  ∧ UseAuthToken.tokenConfirmTimeout 1 pendingTokenState
      = { pendingTokenState with
          pending := none,
          resolutions := pendingTokenState.resolutions ++ [(1, false)] } :=
  have hh := pendingConfirmation_supersede_resolve pendingTokenState 1 2
    (some "t2") rfl
  ⟨hh.1, hh.2.2.2⟩

/-- Claim C9: a failed provider refresh (error result or thrown exception) is
swallowed by both refresh handlers — the whole call only logs the provider
refresh attempt: the cached session, the confirmation slot and the promise
log are untouched, no command is pushed to content, and no provider sign-out
is triggered.  The handlers are total functions, so no exception propagates
to the caller. -/
theorem refreshFailure_swallowed (s : UseAuthToken.AuthState)
    (t : UseAuthSession.AuthState) (o : RefreshOutcome) (id : Nat)
    (h : o.isFailure = true) :
    UseAuthToken.refreshAndSyncToken o s
      = { s with trace := s.trace ++ [.provider .refreshCall] }
  ∧ UseAuthSession.refreshAndSyncSession id o t
      = { t with trace := t.trace ++ [.provider .refreshCall] }
  ∧ (UseAuthToken.refreshAndSyncToken o s).cachedSession = s.cachedSession
  ∧ (UseAuthToken.refreshAndSyncToken o s).trace.filter HostEv.isCmd
      = s.trace.filter HostEv.isCmd
  ∧ (HostEv.provider .signOutCall ∈ (UseAuthToken.refreshAndSyncToken o s).trace
      ↔ HostEv.provider .signOutCall ∈ s.trace)
  ∧ (UseAuthToken.refreshAndSyncToken o s).resolutions = s.resolutions := by
  cases o <;> simp [RefreshOutcome.isFailure] at h <;>
    simp [UseAuthToken.refreshAndSyncToken, UseAuthSession.refreshAndSyncSession,
      List.filter_append, HostEv.isCmd]

/-- Witness for `refreshFailure_swallowed`: a provider error result on the
concrete sample states. -/
theorem refreshFailure_swallowed_witness :
    UseAuthToken.refreshAndSyncToken .refreshError sampleTokenState
      = { sampleTokenState with
          trace := sampleTokenState.trace ++ [.provider .refreshCall] }
  ∧ UseAuthSession.refreshAndSyncSession 3 .refreshError sampleSessionState
      = { sampleSessionState with
          trace := sampleSessionState.trace ++ [.provider .refreshCall] } :=
  have hh := refreshFailure_swallowed sampleTokenState sampleSessionState
    .refreshError 3 rfl
  ⟨hh.1, hh.2.1⟩

/-- Claim C10: when the underlying send fails inside a
send-and-await-confirmation call because no content surface is attached, the
call's promise is resolved `false` in the same step (any superseded waiter
first), the resolver slot and its timer are cleared — leaving no outstanding
waiter — and no command is injected. -/
theorem sendFailure_resolves_immediately (s : UseAuthToken.AuthState)
    (t : UseAuthSession.AuthState) (c d : Nat) (tok : Option String) (x : Session)
    (hs : s.attached = false) (ht : t.attached = false) :
    UseAuthToken.sendTokenAndWaitConfirmation c tok s
      = { s with
          pending := none,
          resolutions := s.resolutions ++ supersededResolutions s.pending c }
  ∧ (UseAuthToken.sendTokenAndWaitConfirmation c tok s).trace = s.trace
  ∧ UseAuthSession.syncSessionToWebView d (some x) t
      = { t with
          pending := none,
          resolutions := t.resolutions ++ supersededResolutions t.pending d }
  ∧ (UseAuthSession.syncSessionToWebView d (some x) t).trace = t.trace := by
  refine ⟨?_, ?_, ?_, ?_⟩ <;>
    cases hp : s.pending <;> cases hq : t.pending <;>
      simp [UseAuthToken.sendTokenAndWaitConfirmation,
        UseAuthToken.sendTokenToWebView, UseAuthSession.syncSessionToWebView,
        UseAuthSession.sendSessionToWebView, supersededResolutions, hs, ht, hp, hq]

/-- Witness for `sendFailure_resolves_immediately` on concrete detached
states with call 1 pending, issuing call 2. -/
theorem sendFailure_resolves_immediately_witness :
    UseAuthToken.sendTokenAndWaitConfirmation 2 (some "tk")
        ⟨false, true, none, none, some 1, [], []⟩
      = ⟨false, true, none, none, none, [(1, false), (2, false)], []⟩
  ∧ UseAuthSession.syncSessionToWebView 2 (some ⟨"a", "r"⟩)
        ⟨false, true, none, some 1, [], []⟩
      = ⟨false, true, none, none, [(1, false), (2, false)], []⟩ :=
  have hh := sendFailure_resolves_immediately
    ⟨false, true, none, none, some 1, [], []⟩
    ⟨false, true, none, some 1, [], []⟩ 2 2 (some "tk") ⟨"a", "r"⟩ rfl rfl
  ⟨hh.1, hh.2.2.1⟩

/-- `URLSearchParams.get` on the empty parameter string finds nothing. -/
theorem getParam_empty (k : String) : getParam "" k = none := rfl

/-- When the fragment-derived parameter string yields a hit, the fragment was
non-empty, so `signInWithGoogle`'s single parameter source is exactly the
stripped fragment. -/
theorem signInParamsSource_eq_stripHash (u : URLParts) (k v : String)
    (h : getParam (stripHash u.hash) k = some v) :
    signInParamsSource u = stripHash u.hash := by
  cases hd : u.hash.data with
  | nil =>
    simp [stripHash, hd, getParam_empty] at h
  | cons x xs =>
    by_cases hx : x = '#'
    · subst hx
      simp [signInParamsSource, stripHash, hd]
    · simp [stripHash, hd, hx, getParam_empty] at h

/-- Claim C7, counterexample: on a callback URL whose fragment is non-empty
but token-free and whose query carries the exchange code, the route handler
`handleCallback` finds the code but `signInWithGoogle`'s extraction consults
the fragment only — it never checks the query — and ends with no
credentials, so the claim's "both locations are checked" fails for that
parser. -/
theorem signInWithGoogle_fragment_masks_query_counterexample :
    handleCallback "app://auth/callback?code=C#state=xyz"
      = some (.exchangeCode "C")
  ∧ signInWithGoogleExtract "app://auth/callback?code=C#state=xyz"
      = some .noCredentials := by
  decide

/-- Claim C7, amended: `handleCallback` checks both the fragment and the
query with the fragment taking precedence — truthy fragment tokens yield that
token pair, and with an empty fragment and no query tokens a truthy query
`code` yields the exchange-code path; `signInWithGoogle` consults only the
fragment when it is non-empty (else only the query), so it agrees on those
two URL shapes but a non-empty token-free fragment masks query credentials
there. -/
theorem deepLink_credential_extraction (url : String) (u : URLParts)
    (a r c : String) (hu : parseURL url = some u) :
    (getParam (stripHash u.hash) "access_token" = some a → a ≠ "" →
     getParam (stripHash u.hash) "refresh_token" = some r → r ≠ "" →
      handleCallback url = some (.setSessionTokens a r)
      ∧ signInWithGoogleExtract url = some (.setSessionTokens a r))
  ∧ (u.hash = "" →
     getParam u.search "access_token" = none →
     getParam u.search "code" = some c → c ≠ "" →
      handleCallback url = some (.exchangeCode c)
      ∧ signInWithGoogleExtract url = some (.exchangeCode c)) := by
  constructor
  · intro h1 ha h2 hr
    have hsrc := signInParamsSource_eq_stripHash u "access_token" a h1
    constructor
    · simp [handleCallback, hu, handleCallbackParts, h1, h2, jsOr, truthy, ha, hr]
    · simp [signInWithGoogleExtract, hu, signInWithGoogleExtractParts, hsrc,
        h1, h2, truthy, ha, hr]
  · intro hh h1 h2 hc
    have hd : u.hash.data = [] := by
      rw [hh]
    have hsrc : signInParamsSource u = u.search := by
      simp [signInParamsSource, hd]
    have hstrip : stripHash u.hash = "" := by
      simp [stripHash, hd]
    constructor
    · simp [handleCallback, hu, handleCallbackParts, hstrip, getParam_empty,
        jsOr, truthy, h1, h2, hc]
    · simp [signInWithGoogleExtract, hu, signInWithGoogleExtractParts, hsrc,
        truthy, h1, h2, hc]

/-- Witness for `deepLink_credential_extraction`: the two callback URL shapes
of the specification, a fragment token pair and a query exchange code. -/
theorem deepLink_credential_extraction_witness :
    handleCallback "app://auth/callback#access_token=A&refresh_token=B"
      = some (.setSessionTokens "A" "B")
  ∧ signInWithGoogleExtract "app://auth/callback#access_token=A&refresh_token=B"
      = some (.setSessionTokens "A" "B")
  ∧ handleCallback "app://auth/callback?code=C" = some (.exchangeCode "C")
  ∧ signInWithGoogleExtract "app://auth/callback?code=C" = some (.exchangeCode "C") := by
  have h1 := (deepLink_credential_extraction
    "app://auth/callback#access_token=A&refresh_token=B"
    ⟨"app", "auth", "/callback", "", "#access_token=A&refresh_token=B"⟩
    "A" "B" "C" (by decide)).1 (by decide) (by decide) (by decide) (by decide)
  have h2 := (deepLink_credential_extraction "app://auth/callback?code=C"
    ⟨"app", "auth", "/callback", "?code=C", ""⟩
    "A" "B" "C" (by decide)).2 rfl (by decide) (by decide) (by decide)
  exact ⟨h1.1, h1.2, h2.1, h2.2⟩
